import Mathlib

/-!
Formal model of the PortPy Eclipse-integration example script
(`examples/eclipse_integration(1).py`).

The script's only original logic is the iterative dose-correction loop
(source lines 126-176).  We embed it shallowly:

* 1-D numpy dose / intensity arrays become `Vec := ℕ → ℚ` with pointwise
  arithmetic (exact rationals in place of floating point);
* the external planning library (influence matrices, the MOSEK solver,
  the prescription and fraction-count plan parameters) becomes the
  structures `Model` / `Env` whose fields are arbitrary functions;
* `pp.Evaluation.get_dose` is not part of the repository source, so it is
  modelled from the spec as a dose-at-volume percentile (see `doseAtVolume`).

Every other definition is a direct translation of the corresponding
source line, keeping the script's variable names.
-/

namespace EclipseCorrection

/-- A 1-D numpy array of per-voxel doses (or per-beamlet intensities),
modelled as a ℕ-indexed family of exact rationals. -/
abbrev Vec := ℕ → ℚ

/-- Maximum of a list of rationals (`0` on the empty list; the element
itself on a singleton, so negative values are handled correctly). -/
def listMax : List ℚ → ℚ
  | [] => 0
  | [a] => a
  | a :: b :: t => max a (listMax (b :: t))

/-- The `k`-th largest element of a list, 0-based: remove a maximal
element `k` times and take the maximum of what is left. -/
def kthLargest : ℕ → List ℚ → ℚ
  | 0, l => listMax l
  | k + 1, l => kthLargest k (l.erase (listMax l))

/-- Modelled from the spec: dose-at-volume.  The spec describes
`Evaluation.get_dose` (whose code is not in the repository) as evaluating
the dose that a reference structure reaches at a target volume
percentile.  For voxel doses `vals` and a percentile `volume_per`, this
is the largest dose `D` such that at least `volume_per` percent of the
voxels receive a dose of at least `D`, i.e. the `⌈volume_per·n/100⌉`-th
largest entry (1-based). -/
def doseAtVolume (vals : List ℚ) (volume_per : ℕ) : ℚ :=
  kthLargest ((volume_per * vals.length + 99) / 100 - 1) vals

/-- An optimization solution as returned by `opt.solve` (source lines 57
and 149): the optimal intensity vector `sol['optimal_intensity']`,
together with the plan/structure information that `Evaluation.get_dose`
reads through `sol` (modelled as the voxel indices of the reference
structure `'PTV'`) and opaque solver metadata (`status`). -/
structure Sol where
  ptv : List ℕ
  intensity : Vec
  status : ℕ

/-- The fixed plan data the script reads from the external library:
the truncated sparse influence matrix `inf_matrix.A`, the full influence
matrix `inf_matrix_full.A` (both as linear-map-like functions on
vectors), `my_plan.get_prescription()` and
`my_plan.get_num_of_fractions()`. -/
structure Model where
  Asparse : Vec → Vec
  Afull : Vec → Vec
  pres : ℚ
  numFractions : ℚ

/-- The model together with the correction solver: `solve delta` builds
the correction problem `opt.create_cvxpy_problem_correction(delta=delta)`
and returns `opt.solve(solver='MOSEK')` (source lines 146-149). -/
structure Env extends Model where
  solve : Vec → Sol

/-- The model together with a fallible solver, used to express that the
script performs no error handling: an exception raised by the solver is
an `Except.error` value (error codes stand for Python exceptions). -/
structure EnvE extends Model where
  solve : Vec → Except ℕ Sol

/-- Source lines 126/155: `norm_volume = 90`. -/
def norm_volume : ℕ := 90

/-- Source lines 127/156: the reference structure name. -/
def norm_struct : String := "PTV"

/-- Model of `pp.Evaluation.get_dose(sol, dose_1d, struct, volume_per)`:
dose-at-volume of `dose_1d` over the reference-structure voxels carried
by `sol`.  Modelled from the spec (the function's code is not in the
repository source). -/
def get_dose (sol : Sol) (dose_1d : Vec) (volume_per : ℕ) : ℚ :=
  doseAtVolume (sol.ptv.map dose_1d) volume_per

/-- Source line 97: `dose_sparse_1d = inf_matrix.A @ (sol['optimal_intensity'] * my_plan.get_num_of_fractions())`. -/
def dose_sparse_1d (M : Model) (sol : Sol) : Vec :=
  M.Asparse fun j => sol.intensity j * M.numFractions

/-- Source line 111: `dose_full_1d = inf_matrix_full.A @ (sol['optimal_intensity'] * my_plan.get_num_of_fractions())`. -/
def dose_full_1d (M : Model) (sol : Sol) : Vec :=
  M.Afull fun j => sol.intensity j * M.numFractions

/-- Source line 130: `norm_factor_sparse = pp.Evaluation.get_dose(sol, dose_1d=dose_sparse_1d, struct=norm_struct, volume_per=norm_volume) / pres`. -/
def norm_factor_sparse (M : Model) (sol : Sol) : ℚ :=
  get_dose sol (dose_sparse_1d M sol) norm_volume / M.pres

/-- Source line 131: `dose_sparse_1d_norm = dose_sparse_1d / norm_factor_sparse`. -/
def dose_sparse_1d_norm (M : Model) (sol : Sol) : Vec :=
  fun j => dose_sparse_1d M sol j / norm_factor_sparse M sol

/-- Source line 133: `norm_factor_full = pp.Evaluation.get_dose(sol, dose_1d=dose_full_1d, struct=norm_struct, volume_per=norm_volume) / pres`. -/
def norm_factor_full (M : Model) (sol : Sol) : ℚ :=
  get_dose sol (dose_full_1d M sol) norm_volume / M.pres

/-- Source line 134: `dose_full_1d_norm = dose_full_1d / norm_factor_full`. -/
def dose_full_1d_norm (M : Model) (sol : Sol) : Vec :=
  fun j => dose_full_1d M sol j / norm_factor_full M sol

/-- Source line 136 (the script's initial `delta`):
`delta = (dose_full_1d_norm - dose_sparse_1d_norm) / my_plan.get_num_of_fractions()`. -/
def delta0 (M : Model) (sol : Sol) : Vec :=
  fun j => (dose_full_1d_norm M sol j - dose_sparse_1d_norm M sol j) / M.numFractions

/-- Source line 151, for a solver output intensity `x` and the current
accumulated `delta`:
`dose_sparse_corr_1d = (inf_matrix.A @ sol_corr['optimal_intensity'] + delta) * my_plan.get_num_of_fractions()`. -/
def dose_sparse_corr_1d (M : Model) (x delta : Vec) : Vec :=
  fun j => (M.Asparse x j + delta j) * M.numFractions

/-- Source line 152:
`dose_full_corr_1d = inf_matrix_full.A @ (sol_corr['optimal_intensity'] * my_plan.get_num_of_fractions())`
(note: no `delta` is added here). -/
def dose_full_corr_1d (M : Model) (x : Vec) : Vec :=
  M.Afull fun j => x j * M.numFractions

/-- Source line 159: in-loop `norm_factor_sparse`, evaluated with the
original pre-correction solution `sol` (not `sol_corr`). -/
def norm_factor_sparse_corr (M : Model) (sol : Sol) (x delta : Vec) : ℚ :=
  get_dose sol (dose_sparse_corr_1d M x delta) norm_volume / M.pres

/-- Source line 160: `dose_sparse_corr_1d_norm = dose_sparse_corr_1d / norm_factor_sparse`. -/
def dose_sparse_corr_1d_norm (M : Model) (sol : Sol) (x delta : Vec) : Vec :=
  fun j => dose_sparse_corr_1d M x delta j / norm_factor_sparse_corr M sol x delta

/-- Source line 162: in-loop `norm_factor_full`, evaluated with the
original pre-correction solution `sol`. -/
def norm_factor_full_corr (M : Model) (sol : Sol) (x : Vec) : ℚ :=
  get_dose sol (dose_full_corr_1d M x) norm_volume / M.pres

/-- Source line 163: `dose_full_corr_1d_norm = dose_full_corr_1d / norm_factor_full`. -/
def dose_full_corr_1d_norm (M : Model) (sol : Sol) (x : Vec) : Vec :=
  fun j => dose_full_corr_1d M x j / norm_factor_full_corr M sol x

/-- Source line 165, for a solver output intensity `x`:
`delta = (dose_full_corr_1d_norm - dose_sparse_corr_1d_norm) / my_plan.get_num_of_fractions()`. -/
def corrStepBodyDelta (M : Model) (sol : Sol) (x delta : Vec) : Vec :=
  fun j =>
    (dose_full_corr_1d_norm M sol x j - dose_sparse_corr_1d_norm M sol x delta j) /
      M.numFractions

/-- The per-iteration recomputed `delta` (source lines 146-165): solve
the correction problem built from the current accumulated `delta`, then
evaluate `corrStepBodyDelta` at `sol_corr['optimal_intensity']`. -/
def newDelta (E : Env) (sol : Sol) (delta : Vec) : Vec :=
  corrStepBodyDelta E.toModel sol (E.solve delta).intensity delta

/-- The loop-carried script state: the never-reassigned pre-correction
solution `sol` (source line 57), and the variables `delta` and
`old_delta` of source lines 136/141/175/176. -/
structure LoopState where
  sol : Sol
  delta : Vec
  old_delta : Vec

/-- One iteration of the correction loop body (source lines 143-176):
recompute `delta`, then `delta = old_delta + delta; old_delta = delta`. -/
def corrIter (E : Env) (s : LoopState) : LoopState :=
  let nd := newDelta E s.sol s.delta
  let d2 := s.old_delta + nd
  ⟨s.sol, d2, d2⟩

/-- The correction loop `for i in range(k)` (source line 143). -/
def corrLoop (E : Env) : ℕ → LoopState → LoopState
  | 0, s => s
  | k + 1, s => corrLoop E k (corrIter E s)

/-- The list of states reached after each iteration of the loop. -/
def corrTrace (E : Env) : ℕ → LoopState → List LoopState
  | 0, _ => []
  | k + 1, s => corrIter E s :: corrTrace E k (corrIter E s)

/-- Source line 142: `num_corr = 2`. -/
def num_corr : ℕ := 2

/-- Source line 141: `old_delta = delta`, entering the loop with the
initial `delta` of line 136. -/
def initState (E : Env) (sol : Sol) : LoopState :=
  ⟨sol, delta0 E.toModel sol, delta0 E.toModel sol⟩

/-- The mathematical sequence of accumulated deltas: `deltaSeq i` is the
`delta` carried into iteration `i + 1` of the loop. -/
def deltaSeq (E : Env) (sol : Sol) (d0 : Vec) : ℕ → Vec
  | 0 => d0
  | i + 1 => deltaSeq E sol d0 i + newDelta E sol (deltaSeq E sol d0 i)

/-- One loop iteration with a fallible solver.  The script wraps the
solver call in no `try`, so a raised exception aborts the iteration and
propagates as-is. -/
def corrIterE (E : EnvE) (s : LoopState) : Except ℕ LoopState :=
  match E.solve s.delta with
  | Except.error e => Except.error e
  | Except.ok sol_corr =>
      let nd := corrStepBodyDelta E.toModel s.sol sol_corr.intensity s.delta
      let d2 := s.old_delta + nd
      Except.ok ⟨s.sol, d2, d2⟩

/-- The correction loop with a fallible solver: the first raised
exception aborts the whole loop and propagates unhandled. -/
def corrLoopE (E : EnvE) : ℕ → LoopState → Except ℕ LoopState
  | 0, s => Except.ok s
  | k + 1, s =>
      match corrIterE E s with
      | Except.error e => Except.error e
      | Except.ok s2 => corrLoopE E k s2

/-- The correction part of the script with both solver call sites
fallible: the initial solve (source line 57, passed in as `solveInit`)
followed by the correction loop.  No branch catches an error. -/
def scriptCorrection (E : EnvE) (solveInit : Except ℕ Sol) : Except ℕ LoopState :=
  match solveInit with
  | Except.error e => Except.error e
  | Except.ok sol =>
      corrLoopE E num_corr ⟨sol, delta0 E.toModel sol, delta0 E.toModel sol⟩

/-- Guarded scalar division: `none` exactly when Python would raise (or
numpy would warn about) a division by zero. -/
def checkedDiv (a b : ℚ) : Option ℚ :=
  if b = 0 then none else some (a / b)

/-- Guarded division of a dose vector by a scalar. -/
def vecCheckedDiv (d : Vec) (c : ℚ) : Option Vec :=
  if c = 0 then none else some fun j => d j / c

/-- Source lines 128-136 with every division guarded. -/
def delta0Checked (M : Model) (sol : Sol) : Option Vec := do
  let nfs ← checkedDiv (get_dose sol (dose_sparse_1d M sol) norm_volume) M.pres
  let dsn ← vecCheckedDiv (dose_sparse_1d M sol) nfs
  let nff ← checkedDiv (get_dose sol (dose_full_1d M sol) norm_volume) M.pres
  let dfn ← vecCheckedDiv (dose_full_1d M sol) nff
  vecCheckedDiv (fun j => dfn j - dsn j) M.numFractions

/-- Source lines 157-165 with every division guarded. -/
def newDeltaChecked (M : Model) (sol : Sol) (x delta : Vec) : Option Vec := do
  let nfs ← checkedDiv (get_dose sol (dose_sparse_corr_1d M x delta) norm_volume) M.pres
  let dsn ← vecCheckedDiv (dose_sparse_corr_1d M x delta) nfs
  let nff ← checkedDiv (get_dose sol (dose_full_corr_1d M x) norm_volume) M.pres
  let dfn ← vecCheckedDiv (dose_full_corr_1d M x) nff
  vecCheckedDiv (fun j => dfn j - dsn j) M.numFractions

/-- A concrete solution used to instantiate theorems with hypotheses. -/
def solw : Sol := ⟨[0], fun _ => 1, 0⟩

/-- A concrete plan model used to instantiate theorems with hypotheses:
identity influence matrices, a 60 Gy prescription, 30 fractions. -/
def Mw : Model := ⟨id, id, 60, 30⟩

/-- A concrete environment whose solver always returns `solw`. -/
def Ew1 : Env := ⟨Mw, fun _ => solw⟩

/-- Like `Ew1` but the returned solutions carry different structure
voxels and different solver metadata, with the same intensity. -/
def Ew2 : Env := ⟨Mw, fun _ => ⟨[1, 2], fun _ => 1, 7⟩⟩

/-- Like `Ew1` but the returned solutions differ only in their opaque
solver metadata (`status`). -/
def Ew3 : Env := ⟨Mw, fun _ => ⟨[0], fun _ => 1, 7⟩⟩

/-- A concrete environment whose solver always raises. -/
def EwErr : EnvE := ⟨Mw, fun _ => Except.error 5⟩

/-- A concrete loop state with zero deltas. -/
def sw : LoopState := ⟨solw, fun _ => 0, fun _ => 0⟩

/-- A plan model whose sparse dose evaluates to a vector with negative
entries (as can happen once a negative `delta` is folded into the sparse
dose): used to refute the claim that a merely nonzero dose-at-volume
suffices for normalization to reach the prescription. -/
def MNeg : Model := ⟨fun _ => fun j => if j = 0 then (-1 : ℚ) else -2, id, 60, 30⟩

/-- A solution whose reference structure consists of voxels 0 and 1. -/
def solNeg : Sol := ⟨[0, 1], fun _ => 0, 0⟩

/-- A concrete dose vector (30 Gy everywhere). -/
def dosew : Vec := fun _ => 30

/-- A concrete intensity vector (1 everywhere). -/
def xw : Vec := fun _ => 1

/-- A concrete delta vector (0 everywhere). -/
def deltaw : Vec := fun _ => 0

lemma listMax_scale (c : ℚ) (hc : 0 ≤ c) :
    ∀ l : List ℚ, listMax (l.map fun a => c * a) = c * listMax l
  | [] => by simp [listMax]
  | [a] => by simp [listMax]
  | a :: b :: t => by
    have ih := listMax_scale c hc (b :: t)
    show max (c * a) (listMax ((b :: t).map fun a => c * a)) = c * max a (listMax (b :: t))
    rw [ih, mul_max_of_nonneg _ _ hc]

lemma erase_scale (c : ℚ) (hc : c ≠ 0) (x : ℚ) (l : List ℚ) :
    (l.map fun a => c * a).erase (c * x) = (l.erase x).map fun a => c * a :=
  (List.map_erase (mul_right_injective₀ hc) l).symm

lemma kthLargest_scale (c : ℚ) (hc : 0 < c) :
    ∀ (k : ℕ) (l : List ℚ), kthLargest k (l.map fun a => c * a) = c * kthLargest k l
  | 0, l => listMax_scale c hc.le l
  | k + 1, l => by
    show kthLargest k ((l.map fun a => c * a).erase (listMax (l.map fun a => c * a)))
        = c * kthLargest k (l.erase (listMax l))
    rw [listMax_scale c hc.le l, erase_scale c hc.ne' (listMax l) l,
      kthLargest_scale c hc k (l.erase (listMax l))]

lemma doseAtVolume_scale (c : ℚ) (hc : 0 < c) (v : ℕ) (l : List ℚ) :
    doseAtVolume (l.map fun a => c * a) v = c * doseAtVolume l v := by
  unfold doseAtVolume
  rw [List.length_map, kthLargest_scale c hc]

lemma get_dose_scale (c : ℚ) (hc : 0 < c) (sol : Sol) (d : Vec) (v : ℕ) :
    get_dose sol (fun j => c * d j) v = c * get_dose sol d v := by
  unfold get_dose
  have h : sol.ptv.map (fun j => c * d j) = (sol.ptv.map d).map fun a => c * a := by
    rw [List.map_map]
    rfl
  rw [h, doseAtVolume_scale c hc]

/-- Normalizing a dose vector by a positive normalization factor makes
its dose-at-volume at the reference point equal to the prescription. -/
lemma get_dose_normalized (sol : Sol) (d : Vec) (pres : ℚ)
    (h : 0 < get_dose sol d norm_volume / pres) :
    get_dose sol (fun j => d j / (get_dose sol d norm_volume / pres)) norm_volume = pres := by
  have hg0 : get_dose sol d norm_volume ≠ 0 := by
    intro h0
    rw [h0, zero_div] at h
    exact lt_irrefl 0 h
  have hrw : (fun j => d j / (get_dose sol d norm_volume / pres))
      = fun j => (get_dose sol d norm_volume / pres)⁻¹ * d j := by
    funext j
    rw [div_eq_inv_mul]
  rw [hrw, get_dose_scale _ (inv_pos.mpr h), inv_div, div_mul_cancel₀ _ hg0]

lemma corrTrace_length (E : Env) : ∀ (k : ℕ) (s : LoopState), (corrTrace E k s).length = k
  | 0, _ => rfl
  | k + 1, s => by simp [corrTrace, corrTrace_length E k]

lemma corrIter_sol (E : Env) (s : LoopState) : (corrIter E s).sol = s.sol := rfl

lemma corrLoop_sol (E : Env) : ∀ (k : ℕ) (s : LoopState), (corrLoop E k s).sol = s.sol
  | 0, _ => rfl
  | k + 1, s => by
    rw [show corrLoop E (k + 1) s = corrLoop E k (corrIter E s) from rfl,
      corrLoop_sol E k, corrIter_sol]

lemma corrTrace_sol (E : Env) :
    ∀ (k : ℕ) (s : LoopState), (corrTrace E k s).map LoopState.sol = List.replicate k s.sol
  | 0, _ => rfl
  | k + 1, s => by
    simp [corrTrace, corrTrace_sol E k (corrIter E s), corrIter_sol, List.replicate_succ]

lemma newDelta_congr (E E2 : Env) (h : E.toModel = E2.toModel)
    (hi : ∀ d, (E.solve d).intensity = (E2.solve d).intensity) (sol : Sol) (delta : Vec) :
    newDelta E sol delta = newDelta E2 sol delta := by
  unfold newDelta
  rw [h, hi]

lemma corrIter_congr (E E2 : Env) (h : E.toModel = E2.toModel)
    (hi : ∀ d, (E.solve d).intensity = (E2.solve d).intensity) (s : LoopState) :
    corrIter E s = corrIter E2 s := by
  unfold corrIter
  rw [newDelta_congr E E2 h hi]

lemma corrTrace_congr (E E2 : Env) (h : E.toModel = E2.toModel)
    (hi : ∀ d, (E.solve d).intensity = (E2.solve d).intensity) :
    ∀ (k : ℕ) (s : LoopState), corrTrace E k s = corrTrace E2 k s
  | 0, _ => rfl
  | k + 1, s => by
    simp only [corrTrace]
    rw [corrIter_congr E E2 h hi, corrTrace_congr E E2 h hi k]

lemma corrIter_deltaSeq (E : Env) (sol : Sol) (d0 : Vec) (i : ℕ) :
    corrIter E ⟨sol, deltaSeq E sol d0 i, deltaSeq E sol d0 i⟩
      = ⟨sol, deltaSeq E sol d0 (i + 1), deltaSeq E sol d0 (i + 1)⟩ := rfl

lemma corrLoop_deltaSeq (E : Env) (sol : Sol) (d0 : Vec) :
    ∀ (k i : ℕ),
      corrLoop E k ⟨sol, deltaSeq E sol d0 i, deltaSeq E sol d0 i⟩
        = ⟨sol, deltaSeq E sol d0 (i + k), deltaSeq E sol d0 (i + k)⟩
  | 0, i => rfl
  | k + 1, i =>
    calc corrLoop E (k + 1) ⟨sol, deltaSeq E sol d0 i, deltaSeq E sol d0 i⟩
        = corrLoop E k (corrIter E ⟨sol, deltaSeq E sol d0 i, deltaSeq E sol d0 i⟩) := rfl
      _ = corrLoop E k ⟨sol, deltaSeq E sol d0 (i + 1), deltaSeq E sol d0 (i + 1)⟩ := by
          rw [corrIter_deltaSeq]
      _ = ⟨sol, deltaSeq E sol d0 ((i + 1) + k), deltaSeq E sol d0 ((i + 1) + k)⟩ :=
          corrLoop_deltaSeq E sol d0 k (i + 1)
      _ = ⟨sol, deltaSeq E sol d0 (i + (k + 1)), deltaSeq E sol d0 (i + (k + 1))⟩ := by
          rw [show (i + 1) + k = i + (k + 1) from by omega]

lemma deltaSeq_sum (E : Env) (sol : Sol) (d0 : Vec) :
    ∀ k : ℕ,
      deltaSeq E sol d0 k
        = d0 + ((List.range k).map fun i => newDelta E sol (deltaSeq E sol d0 i)).sum
  | 0 => by simp [deltaSeq]
  | k + 1 => by
    show deltaSeq E sol d0 k + newDelta E sol (deltaSeq E sol d0 k) = _
    simp only [List.range_succ, List.map_append, List.sum_append, List.map_cons,
      List.map_nil, List.sum_cons, List.sum_nil]
    rw [deltaSeq_sum E sol d0 k]
    simp [add_assoc]

/-- Claim C1: after each iteration of the correction loop, the delta
carried into the next iteration is the running accumulated total: the
loop state after `k` iterations carries `deltaSeq k`, the delta entering
iteration `i + 1` is the previous accumulated delta plus the delta newly
computed in iteration `i`, and after `k` iterations the accumulated
delta equals the initial delta plus the sum of the `k` per-iteration
deltas. -/
theorem delta_accumulation (E : Env) (sol : Sol) (d0 : Vec) (k : ℕ) :
    (corrLoop E k ⟨sol, d0, d0⟩).delta = deltaSeq E sol d0 k
    ∧ (∀ i : ℕ, deltaSeq E sol d0 (i + 1)
        = deltaSeq E sol d0 i + newDelta E sol (deltaSeq E sol d0 i))
    ∧ deltaSeq E sol d0 k
        = d0 + ((List.range k).map fun i => newDelta E sol (deltaSeq E sol d0 i)).sum := by
  refine ⟨?_, fun i => rfl, deltaSeq_sum E sol d0 k⟩
  have h := corrLoop_deltaSeq E sol d0 k 0
  rw [show deltaSeq E sol d0 0 = d0 from rfl] at h
  rw [h, show (0 : ℕ) + k = k from by omega]

/-- Claim C3: in every iteration of the correction loop, the solver is
re-run on the current accumulated delta (`E.solve s.delta`), and the new
delta is the normalized full dose minus the normalized sparse dose
divided by the fraction count, where both doses are recomputed from the
new solution's optimal intensity. -/
theorem iteration_recompute (E : Env) (s : LoopState) (j : ℕ) :
    corrIter E s
      = ⟨s.sol, s.old_delta + newDelta E s.sol s.delta,
          s.old_delta + newDelta E s.sol s.delta⟩
    ∧ newDelta E s.sol s.delta j
        = (dose_full_corr_1d E.toModel ((E.solve s.delta).intensity) j
              / (get_dose s.sol (dose_full_corr_1d E.toModel ((E.solve s.delta).intensity))
                  norm_volume / E.pres)
            - dose_sparse_corr_1d E.toModel ((E.solve s.delta).intensity) s.delta j
              / (get_dose s.sol
                  (dose_sparse_corr_1d E.toModel ((E.solve s.delta).intensity) s.delta)
                  norm_volume / E.pres))
          / E.numFractions
    ∧ dose_sparse_corr_1d E.toModel ((E.solve s.delta).intensity) s.delta j
        = (E.Asparse ((E.solve s.delta).intensity) j + s.delta j) * E.numFractions
    ∧ dose_full_corr_1d E.toModel ((E.solve s.delta).intensity)
        = E.Afull fun i => (E.solve s.delta).intensity i * E.numFractions :=
  ⟨rfl, rfl, rfl, rfl⟩

/-- Claim C4: the delta fed into the first correction iteration is the
initial `delta` of source line 136: full dose minus sparse dose, each
normalized to the dose-at-volume reference point (PTV at the 90th volume
percentile, scaled to the prescription), divided by the fraction count,
where both doses are the influence matrices applied to the optimal
intensity times the fraction count. -/
theorem initial_delta_formula (E : Env) (sol : Sol) (j : ℕ) :
    (initState E sol).delta = delta0 E.toModel sol
    ∧ (initState E sol).old_delta = delta0 E.toModel sol
    ∧ dose_sparse_1d E.toModel sol = E.Asparse (fun i => sol.intensity i * E.numFractions)
    ∧ dose_full_1d E.toModel sol = E.Afull (fun i => sol.intensity i * E.numFractions)
    ∧ delta0 E.toModel sol j
        = (dose_full_1d E.toModel sol j
              / (get_dose sol (dose_full_1d E.toModel sol) norm_volume / E.pres)
            - dose_sparse_1d E.toModel sol j
              / (get_dose sol (dose_sparse_1d E.toModel sol) norm_volume / E.pres))
          / E.numFractions :=
  ⟨rfl, rfl, rfl, rfl, rfl⟩

/-- Claim C5: the correction loop always runs for exactly the fixed
user-set iteration count `num_corr = 2`; the number of iterations
executed is the same for every environment and every starting state (in
particular it does not depend on any computed delta value), and no
convergence criterion exists: the trace length is `k` unconditionally. -/
theorem loop_fixed_iteration_count (E E2 : Env) (s s2 : LoopState) (k : ℕ) :
    (corrTrace E k s).length = k
    ∧ (corrTrace E num_corr s).length = num_corr
    ∧ (corrTrace E num_corr s).length = (corrTrace E2 num_corr s2).length
    ∧ num_corr = 2 := by
  refine ⟨corrTrace_length E k s, corrTrace_length E num_corr s, ?_, rfl⟩
  rw [corrTrace_length E num_corr s, corrTrace_length E2 num_corr s2]

/-- Claim C6: the correction loop is deterministic: two runs from equal
synthetic inputs (equal environments, i.e. equal dose models and solver
functions, and equal starting states) produce the identical sequence of
accumulated deltas. -/
theorem trace_deterministic (E E2 : Env) (s s2 : LoopState) (k : ℕ)
    (hE : E = E2) (hs : s = s2) :
    (corrTrace E k s).map LoopState.delta = (corrTrace E2 k s2).map LoopState.delta := by
  rw [hE, hs]

/-- Witness for C6, at a concrete environment and state. -/
theorem trace_deterministic_witness :
    (corrTrace Ew1 num_corr sw).map LoopState.delta
      = (corrTrace Ew1 num_corr sw).map LoopState.delta :=
  trace_deterministic Ew1 Ew1 sw sw num_corr rfl rfl

/-- Claim C8: the delta correction term is applied asymmetrically in the
loop: the sparse dose is (sparse influence matrix applied to the new
intensity, plus the current accumulated delta) times the fraction count,
while the full dose is the full influence matrix applied to (intensity
times fraction count) with no delta added; and these are exactly the
doses entering the per-iteration delta recomputation. -/
theorem delta_asymmetric_application (M : Model) (sol : Sol) (E : Env)
    (x delta : Vec) (j : ℕ) :
    dose_sparse_corr_1d M x delta j = (M.Asparse x j + delta j) * M.numFractions
    ∧ dose_full_corr_1d M x j = M.Afull (fun i => x i * M.numFractions) j
    ∧ newDelta E sol delta
        = corrStepBodyDelta E.toModel sol ((E.solve delta).intensity) delta
    ∧ corrStepBodyDelta M sol x delta
        = fun i => (dose_full_corr_1d_norm M sol x i
            - dose_sparse_corr_1d_norm M sol x delta i) / M.numFractions :=
  ⟨rfl, rfl, rfl, rfl⟩

/-- Claim C2 (amended): for every dose vector whose normalization factor
(dose-at-volume at the reference point, PTV at the 90th volume
percentile, divided by the prescription) is positive — in particular
whenever the dose-at-volume and the prescription are both positive —
dividing the dose vector by the normalization factor yields a dose
distribution whose dose-at-volume at the reference point equals the
prescription exactly (exact rational arithmetic standing in for
floating point).  The statement covers the generic normalization and
its four occurrences in the script: the initial sparse and full
normalizations and the in-loop sparse and full normalizations of every
correction iteration. -/
theorem normalization_reaches_prescription :
    (∀ (sol : Sol) (d : Vec) (pres : ℚ),
      0 < get_dose sol d norm_volume / pres →
      get_dose sol (fun j => d j / (get_dose sol d norm_volume / pres)) norm_volume = pres)
    ∧ (∀ (M : Model) (sol : Sol), 0 < norm_factor_sparse M sol →
        get_dose sol (dose_sparse_1d_norm M sol) norm_volume = M.pres)
    ∧ (∀ (M : Model) (sol : Sol), 0 < norm_factor_full M sol →
        get_dose sol (dose_full_1d_norm M sol) norm_volume = M.pres)
    ∧ (∀ (M : Model) (sol : Sol) (x delta : Vec),
        0 < norm_factor_sparse_corr M sol x delta →
        get_dose sol (dose_sparse_corr_1d_norm M sol x delta) norm_volume = M.pres)
    ∧ (∀ (M : Model) (sol : Sol) (x : Vec),
        0 < norm_factor_full_corr M sol x →
        get_dose sol (dose_full_corr_1d_norm M sol x) norm_volume = M.pres) := by
  refine ⟨get_dose_normalized, fun M sol h => ?_, fun M sol h => ?_,
    fun M sol x delta h => ?_, fun M sol x h => ?_⟩
  · exact get_dose_normalized sol (dose_sparse_1d M sol) M.pres h
  · exact get_dose_normalized sol (dose_full_1d M sol) M.pres h
  · exact get_dose_normalized sol (dose_sparse_corr_1d M x delta) M.pres h
  · exact get_dose_normalized sol (dose_full_corr_1d M x) M.pres h

/-- Witness for C2 (amended), at a concrete model where the reference
dose-at-volume is 30 and the prescription is 60. -/
theorem normalization_reaches_prescription_witness :
    get_dose solw (fun j => dosew j / (get_dose solw dosew norm_volume / 60)) norm_volume = 60
    ∧ get_dose solw (dose_sparse_1d_norm Mw solw) norm_volume = Mw.pres
    ∧ get_dose solw (dose_full_1d_norm Mw solw) norm_volume = Mw.pres
    ∧ get_dose solw (dose_sparse_corr_1d_norm Mw solw xw deltaw) norm_volume = Mw.pres
    ∧ get_dose solw (dose_full_corr_1d_norm Mw solw xw) norm_volume = Mw.pres := by
  obtain ⟨h1, h2, h3, h4, h5⟩ := normalization_reaches_prescription
  refine ⟨h1 solw dosew 60 ?_, h2 Mw solw ?_, h3 Mw solw ?_, h4 Mw solw xw deltaw ?_,
    h5 Mw solw xw ?_⟩ <;>
    norm_num [solw, dosew, Mw, xw, deltaw, get_dose, doseAtVolume, kthLargest, listMax,
      norm_factor_sparse, norm_factor_full, norm_factor_sparse_corr, norm_factor_full_corr,
      dose_sparse_1d, dose_full_1d, dose_sparse_corr_1d, dose_full_corr_1d]

/-- Counterexample to claim C2 as stated: once the dose vector has
negative entries (reachable in the loop, since the accumulated `delta`
can be negative), a nonzero dose-at-volume at the reference point does
not suffice: here the sparse dose is `[-1, -2]` on the reference
structure, its dose-at-volume is `-2 ≠ 0`, the prescription is 60, and
the normalized dose has dose-at-volume `30 ≠ 60`. -/
theorem normalization_nonzero_insufficient :
    get_dose solNeg (dose_sparse_1d MNeg solNeg) norm_volume ≠ 0
    ∧ norm_factor_sparse MNeg solNeg ≠ 0
    ∧ get_dose solNeg (dose_sparse_1d_norm MNeg solNeg) norm_volume ≠ MNeg.pres := by
  norm_num [solNeg, MNeg, get_dose, dose_sparse_1d, dose_sparse_1d_norm,
    norm_factor_sparse, doseAtVolume, kthLargest, listMax]

/-- Claim C7: no solver failure is caught or checked anywhere: if the
initial solve raises, the whole correction computation propagates that
very error; if an in-loop solve raises, the iteration and the remaining
loop propagate that very error (no retry, no recovery branch); and the
returned solution's metadata/status is never inspected: solvers whose
solutions agree on structure voxels and intensity (but may differ in
status) produce identical loop traces. -/
theorem solver_failure_propagation (E : EnvE) (e : ℕ) (s : LoopState) (k : ℕ)
    (si : Except ℕ Sol) (E1 E2 : Env) :
    (si = Except.error e → scriptCorrection E si = Except.error e)
    ∧ (E.solve s.delta = Except.error e → corrIterE E s = Except.error e)
    ∧ (E.solve s.delta = Except.error e → corrLoopE E (k + 1) s = Except.error e)
    ∧ (E1.toModel = E2.toModel →
        (∀ d, (E1.solve d).ptv = (E2.solve d).ptv) →
        (∀ d, (E1.solve d).intensity = (E2.solve d).intensity) →
        corrTrace E1 k s = corrTrace E2 k s) := by
  have hiter : E.solve s.delta = Except.error e → corrIterE E s = Except.error e := by
    intro h
    unfold corrIterE
    rw [h]
  refine ⟨fun h => ?_, hiter, fun h => ?_, fun h hptv hint => corrTrace_congr E1 E2 h hint k s⟩
  · rw [h]
    rfl
  · show (match corrIterE E s with
      | Except.error e => Except.error e
      | Except.ok s2 => corrLoopE E k s2) = Except.error e
    rw [hiter h]

/-- Witness for C7: a concrete failing solver propagates its error
through an iteration, the loop and the whole correction computation,
and two concrete solvers differing only in solution status give the
same trace. -/
theorem solver_failure_propagation_witness :
    scriptCorrection EwErr (Except.error 5) = Except.error 5
    ∧ corrIterE EwErr sw = Except.error 5
    ∧ corrLoopE EwErr (1 + 1) sw = Except.error 5
    ∧ corrTrace Ew1 1 sw = corrTrace Ew3 1 sw := by
  obtain ⟨h1, h2, h3, h4⟩ :=
    solver_failure_propagation EwErr 5 sw 1 (Except.error 5) Ew1 Ew3
  exact ⟨h1 rfl, h2 rfl, h3 rfl, h4 rfl (fun d => rfl) (fun d => rfl)⟩

/-- Claim C9: the correction loop never rebinds the original
pre-correction solution: the `sol` component of the loop state is
returned unchanged by every iteration and by any number of iterations;
every dose-at-volume evaluation inside the loop is performed with that
original `sol` (the in-loop normalization factors are `get_dose` at the
state's `sol`); and the per-iteration corrected solution enters only
through its optimal intensity, never through a `get_dose` evaluation:
two solvers whose solutions agree on intensity but carry arbitrarily
different structure data and status yield identical recomputed deltas. -/
theorem sol_frame (E E2 : Env) (sol : Sol) (delta : Vec) (k : ℕ) (s : LoopState) :
    (corrLoop E k s).sol = s.sol
    ∧ (corrTrace E k s).map LoopState.sol = List.replicate k s.sol
    ∧ corrIter E s
        = ⟨s.sol, s.old_delta + newDelta E s.sol s.delta,
            s.old_delta + newDelta E s.sol s.delta⟩
    ∧ norm_factor_sparse_corr E.toModel s.sol ((E.solve s.delta).intensity) s.delta
        = get_dose s.sol
            (dose_sparse_corr_1d E.toModel ((E.solve s.delta).intensity) s.delta)
            norm_volume / E.pres
    ∧ norm_factor_full_corr E.toModel s.sol ((E.solve s.delta).intensity)
        = get_dose s.sol (dose_full_corr_1d E.toModel ((E.solve s.delta).intensity))
            norm_volume / E.pres
    ∧ (E.toModel = E2.toModel →
        (∀ d, (E.solve d).intensity = (E2.solve d).intensity) →
        newDelta E sol delta = newDelta E2 sol delta) :=
  ⟨corrLoop_sol E k s, corrTrace_sol E k s, rfl, rfl, rfl,
    fun h hi => newDelta_congr E E2 h hi sol delta⟩

/-- Witness for C9: a concrete run keeps `sol` unchanged, and two
concrete solvers agreeing on intensity but returning different
structure voxels and status give the same recomputed delta. -/
theorem sol_frame_witness :
    (corrLoop Ew1 num_corr sw).sol = sw.sol
    ∧ newDelta Ew1 solw deltaw = newDelta Ew2 solw deltaw := by
  obtain ⟨h1, _, _, _, _, h6⟩ := sol_frame Ew1 Ew2 solw deltaw num_corr sw
  exact ⟨h1, h6 rfl (fun d => rfl)⟩

lemma checkedDiv_of_ne (a b : ℚ) (hb : b ≠ 0) : checkedDiv a b = some (a / b) := by
  unfold checkedDiv
  rw [if_neg hb]

lemma vecCheckedDiv_of_ne (d : Vec) (c : ℚ) (hc : c ≠ 0) :
    vecCheckedDiv d c = some fun j => d j / c := by
  unfold vecCheckedDiv
  rw [if_neg hc]

/-- Claim C10: under the preconditions that the prescription and the
fraction count are nonzero and every dose-at-volume evaluation at the
reference point returns a nonzero value, every division performed by the
initial delta computation and by the per-iteration delta recomputation
(divisions by the prescription, by the two normalization factors and by
the fraction count) is well-defined: the guarded versions never hit the
division-by-zero case and agree with the unguarded code. -/
theorem unguarded_divisions_safe (M : Model) (sol : Sol) (x delta : Vec)
    (hp : M.pres ≠ 0) (hf : M.numFractions ≠ 0)
    (h1 : get_dose sol (dose_sparse_1d M sol) norm_volume ≠ 0)
    (h2 : get_dose sol (dose_full_1d M sol) norm_volume ≠ 0)
    (h3 : get_dose sol (dose_sparse_corr_1d M x delta) norm_volume ≠ 0)
    (h4 : get_dose sol (dose_full_corr_1d M x) norm_volume ≠ 0) :
    delta0Checked M sol = some (delta0 M sol)
    ∧ newDeltaChecked M sol x delta = some (corrStepBodyDelta M sol x delta) := by
  constructor
  · simp only [delta0Checked, checkedDiv_of_ne _ _ hp,
      vecCheckedDiv_of_ne _ _ (div_ne_zero h1 hp), vecCheckedDiv_of_ne _ _ (div_ne_zero h2 hp),
      vecCheckedDiv_of_ne _ _ hf, Option.bind_eq_bind, Option.some_bind]
    rfl
  · simp only [newDeltaChecked, checkedDiv_of_ne _ _ hp,
      vecCheckedDiv_of_ne _ _ (div_ne_zero h3 hp), vecCheckedDiv_of_ne _ _ (div_ne_zero h4 hp),
      vecCheckedDiv_of_ne _ _ hf, Option.bind_eq_bind, Option.some_bind]
    rfl

/-- Witness for C10: at a concrete plan model with 60 Gy prescription,
30 fractions and all reference dose-at-volumes equal to 30, the guarded
computations succeed and agree with the unguarded ones. -/
theorem unguarded_divisions_safe_witness :
    delta0Checked Mw solw = some (delta0 Mw solw)
    ∧ newDeltaChecked Mw solw xw deltaw = some (corrStepBodyDelta Mw solw xw deltaw) := by
  refine unguarded_divisions_safe Mw solw xw deltaw ?_ ?_ ?_ ?_ ?_ ?_ <;>
    norm_num [Mw, solw, xw, deltaw, get_dose, doseAtVolume, kthLargest, listMax,
      dose_sparse_1d, dose_full_1d, dose_sparse_corr_1d, dose_full_corr_1d]

end EclipseCorrection
